import Mathlib

set_option linter.unusedVariables false

/-!
Verification of the L3DAS21 utility functions (`utility_functions.py`)
against their natural-language specification.

The numeric payload of the repository (times, coordinates, label values)
is embedded over `ℚ`: the Python code runs on IEEE doubles, but every
property checked here concerns the branch structure and index arithmetic
of the code, which the exact-arithmetic embedding reproduces faithfully
(the concrete scenarios below were additionally traced by hand against
double rounding; the verdicts coincide).
-/

set_option autoImplicit false

deriving instance DecidableEq for Except

namespace L3DAS

/-- One annotated sound event, i.e. one row of a task-2 label csv file
with columns Start, End, Class, X, Y, Z.  Classes are identified by their
index in the `classes_` list (`classes_names.index(clas)` in the source),
so `cls` is that index.  `stop` models the `End` column. -/
structure Event where
  start : ℚ
  stop : ℚ
  cls : Nat
  x : ℚ
  y : ℚ
  z : ℚ
  deriving Repr, DecidableEq

/-- Point update of a slot row (a Python list cell assignment
`vec[i] = v`); cells still holding `None` are `none`. -/
def updF (f : Nat → Option ℚ) (i : Nat) (v : ℚ) : Nat → Option ℚ :=
  fun k => if k = i then some v else f k

/-- The per-frame mutable state of `get_label_task2`:
`cls` models the row `class_vec[j]` (length `num_classes*3`) and
`loc` models the row `loc_vec[j]` (length `num_classes*9`), both
initialised to all `None`. -/
structure FrameRow where
  cls : Nat → Option ℚ
  loc : Nat → Option ℚ

def initRow : FrameRow := ⟨fun _ => none, fun _ => none⟩

/-- The three overlap conditions of `get_label_task2` (lines 202-207):
`start_audio<start and end_audio>end`, `end_audio>start and end_audio<end`,
`start_audio>start and start_audio<end`.  All inequalities are strict. -/
def is_in (ev : Event) (fstart fend : ℚ) : Bool :=
  (decide (ev.start < fstart) && decide (ev.stop > fend)) ||
  (decide (ev.stop > fstart) && decide (ev.stop < fend)) ||
  (decide (ev.start > fstart) && decide (ev.start < fend))

/-- Processing of one event `data` of class `c` inside the frame window
`(fstart, fend)`, lines 196-227 of `utility_functions.py`.
`ind_class = classes_names.index(clas)*3`.  The class-presence chain fills
`ind_class`, `ind_class+1`, `ind_class+2` in order; the location chain
guards its second branch with `loc_vec[j][ind_class+1]` (exactly as the
source does -- not `ind_class*3+3`) and writes triples at offsets
`ind_class*3`, `ind_class*3+3`, `ind_class*3+6`. -/
def applyEvent (c : Nat) (ev : Event) (fstart fend : ℚ) (r : FrameRow) : FrameRow :=
  if is_in ev fstart fend then
    let ind := c * 3
    let cls' :=
      if r.cls ind = none then updF r.cls ind 1
      else if r.cls ind ≠ none ∧ r.cls (ind + 1) = none then updF r.cls (ind + 1) 1
      else updF r.cls (ind + 2) 1
    let loc' :=
      if r.loc (ind * 3) = none then
        updF (updF (updF r.loc (0 + ind * 3) ev.x) (1 + ind * 3) ev.y) (2 + ind * 3) ev.z
      else if r.loc (ind * 3) ≠ none ∧ r.loc (ind + 1) = none then
        updF (updF (updF r.loc (3 + ind * 3) ev.x) (4 + ind * 3) ev.y) (5 + ind * 3) ev.z
      else
        updF (updF (updF r.loc (6 + ind * 3) ev.x) (7 + ind * 3) ev.y) (8 + ind * 3) ev.z
    ⟨cls', loc'⟩
  else r

/-- `class_dict[clas]`: the events of class `c` in csv row order
(the source groups `df.loc[df['Class'] == class_name]` per class,
preserving file order). -/
def eventsOf (events : List Event) (c : Nat) : List Event :=
  events.filter (fun e => e.cls == c)

/-- State of frame `j` after the two nested loops
`for clas in class_dict: for data in data_list:` have run.  The frame
window of `j` is `(j*frame_len, (j+1)*frame_len)`: the source iterates
`for j, i in enumerate(np.arange(frame_len, file_size+frame_len, frame_len))`
with `start = i-frame_len`, `end = i`, i.e. `start = j*frame_len` and
`end = (j+1)*frame_len` in exact arithmetic. -/
def frameRow (events : List Event) (num_classes : Nat) (frame_len : ℚ) (j : Nat) : FrameRow :=
  let fstart : ℚ := j * frame_len
  let fend : ℚ := (j + 1) * frame_len
  (List.range num_classes).foldl
    (fun r c => (eventsOf events c).foldl (fun r' ev => applyEvent c ev fstart fend r') r)
    initRow

/-- `get_label_task2` (lines 160-244): the stacked label matrix.  Each row
is the `class_vec[j]` row (length `num_classes*3`, `None` replaced by 0)
followed by the `loc_vec[j]` row (length `num_classes*9`, `None` replaced
by 0, then divided by `max_label_distance`).  `num_frames` equals the
number of `np.arange(frame_len, file_size+frame_len, frame_len)` steps,
i.e. `⌈file_size/frame_len⌉`, in every configuration the repository uses
(600 frames for `file_size=60`, `frame_len=0.1`); the unused
`sample_rate` argument of the source is dropped. -/
def get_label_task2 (events : List Event) (num_classes num_frames : Nat)
    (frame_len max_label_distance : ℚ) : List (List ℚ) :=
  (List.range num_frames).map fun j =>
    let r := frameRow events num_classes frame_len j
    ((List.range (num_classes * 3)).map fun k => (r.cls k).getD 0) ++
    ((List.range (num_classes * 9)).map fun k => (r.loc k).getD 0 / max_label_distance)

/-- `np.round` on a scalar: round half to even (banker's rounding). -/
def npRound (q : ℚ) : ℤ :=
  let f := ⌊q⌋
  if q - f < 1 / 2 then f
  else if (1 : ℚ) / 2 < q - f then f + 1
  else if f % 2 = 0 then f else f + 1

/-- One output row `[time_frame, sound_class, x, y, z]` of
`gen_submission_list_task2`. -/
structure SubRow where
  frame : Nat
  cls : Nat
  x : ℚ
  y : ℚ
  z : ℚ
  deriving Repr, DecidableEq

/-- The body of the per-frame loop of `gen_submission_list_task2`
(lines 90-103): round the class predictions, scale the locations by
`max_loc_value`, reshape the location row to
`(num_classes, max_overlaps, 3)` -- numpy raises a ValueError when the
row's size is not `num_classes*max_overlaps*3`, before the empty-frame
test -- then skip the frame if the rounded sum is 0, otherwise emit one
row per nonzero entry `j` with `predicted_class = j / max_overlaps`
(integer division) and `num_event = j % max_overlaps`, reading the
location triple of `l[predicted_class][num_event]` at its flat offset
`predicted_class*(max_overlaps*3) + num_event*3`; when
`predicted_class ≥ num_classes` that axis-0 index raises numpy's
IndexError, discarding all rows. -/
def decodeFrame (i : Nat) (c l : List ℚ) (max_loc_value : ℚ)
    (num_classes max_overlaps : Nat) : Except String (List SubRow) :=
  let cR : List ℚ := c.map fun q => ((npRound q : ℤ) : ℚ)
  let lS : List ℚ := l.map fun q => q * max_loc_value
  if l.length ≠ num_classes * (max_overlaps * 3) then
    Except.error "ValueError: cannot reshape array"
  else if cR.sum = 0 then Except.ok []
  else cR.enum.foldlM (fun acc je =>
    if je.2 ≠ 0 then
      let pc := je.1 / max_overlaps
      let nev := je.1 % max_overlaps
      if num_classes ≤ pc then
        Except.error "IndexError: index out of bounds for axis 0"
      else
        Except.ok (acc ++ [⟨i, pc, lS.getD (pc * (max_overlaps * 3) + nev * 3 + 0) 0,
                              lS.getD (pc * (max_overlaps * 3) + nev * 3 + 1) 0,
                              lS.getD (pc * (max_overlaps * 3) + nev * 3 + 2) 0⟩])
    else Except.ok acc) []

/-- `gen_submission_list_task2` (lines 83-105): iterate all time frames of
the zipped `(sed, doa)` matrices and concatenate the per-frame rows; an
exception raised in any frame (bad reshape size or out-of-range class
index) propagates, discarding the accumulated list.  The `num_frames`
argument of the source is unused by its body and is kept for signature
fidelity. -/
def gen_submission_list_task2 (sed doa : List (List ℚ)) (max_loc_value : ℚ)
    (num_frames num_classes max_overlaps : Nat) : Except String (List SubRow) :=
  ((sed.zip doa).enum).foldlM
    (fun acc p => do
      let rows ← decodeFrame p.1 p.2.1 p.2.2 max_loc_value num_classes max_overlaps
      Except.ok (acc ++ rows))
    []

/-- `np.arange(0, stop, step)` over naturals: the multiples of `step`
below `stop`.  For `step = 0` numpy raises; every theorem below assumes a
positive step, so the `[]` returned here is never relied upon. -/
def arangeN (stop step : Nat) : List Nat :=
  (List.range ((stop + step - 1) / step)).map (· * step)

/-- A 1-D python slice `row[s:e]`. -/
def rowSlice (row : List ℚ) (s e : Nat) : List ℚ := (row.drop s).take (e - s)

/-- The inner `pad` helpers of `segment_waveforms` / `segment_task2`:
a zero buffer of trailing length `d` with the row copied into its head,
i.e. right zero-padding.  (The helpers are only ever called with rows of
length at most `d`; numpy would raise on longer rows.) -/
def padTo (row : List ℚ) (d : Nat) : List ℚ := row ++ List.replicate (d - row.length) 0

/-- `segment_waveforms` (lines 247-274): cut points
`np.arange(0, predictors.shape[-1], length)`; every chunk except the last
is the slice `[cuts[i], cuts[i+1])` of each channel row, the last is the
slice `[cuts[i], shape[-1])` zero-padded to `length`. -/
def segment_waveforms (predictors target : List (List ℚ)) (length : Nat) :
    List (List (List ℚ)) × List (List (List ℚ)) :=
  let N := (predictors.headD []).length
  let cuts := arangeN N length
  let k := cuts.length
  let chunkOf := fun (m : List (List ℚ)) (i : Nat) =>
    let start := cuts.getD i 0
    if i ≠ k - 1 then m.map fun row => rowSlice row start (cuts.getD (i + 1) 0)
    else m.map fun row => padTo (rowSlice row start N) length
  ((List.range k).map (chunkOf predictors), (List.range k).map (chunkOf target))

/-- Trailing (time) dimension of a 3-D array, `x.shape[-1]`. -/
def lastDim3 (x : List (List (List ℚ))) : Nat := ((x.headD []).headD []).length

/-- Python `int()` applied to the nonnegative product `seg_len*overlap`
(truncation; equal to the floor for the nonnegative values used). -/
def intTrunc (q : ℚ) : Nat := (⌊q⌋).toNat

/-- The cut points of one stream of `segment_task2` (lines 288-289):
`np.arange(0, shape[-1], int(seg_len*overlap))`. -/
def task2Cuts (total seg_len : Nat) (overlap : ℚ) : List Nat :=
  arangeN total (intTrunc ((seg_len : ℚ) * overlap))

/-- `target.reshape(1, target.shape[-1], target.shape[0])` (line 287),
row-major as in numpy. -/
def reshapeTarget (target : List (List ℚ)) : List (List (List ℚ)) :=
  let A := target.length
  let B := (target.headD []).length
  let flat := target.flatten
  [(List.range B).map fun i => (List.range A).map fun j => flat.getD (i * A + j) 0]

/-- `np.reshape(cut_y, (cut_y.shape[-1], cut_y.shape[1]))` (line 308),
row-major. -/
def reshapeCutY (cuty : List (List (List ℚ))) : List (List ℚ) :=
  let B := (cuty.headD []).length
  let L := ((cuty.headD []).headD []).length
  let flat := (cuty.map (fun m => m.flatten)).flatten
  (List.range L).map fun p => (List.range B).map fun q => flat.getD (p * B + q) 0

/-- A trailing-axis slice of a 3-D array, `x[:,:,s:e]`. -/
def slice3 (x : List (List (List ℚ))) (s e : Nat) : List (List (List ℚ)) :=
  x.map fun m => m.map fun row => rowSlice row s e

/-- `x[:,:,s:]`. -/
def drop3 (x : List (List (List ℚ))) (s : Nat) : List (List (List ℚ)) :=
  x.map fun m => m.map fun row => row.drop s

/-- The 3-D `pad` helper of `segment_task2` (lines 282-285). -/
def pad3 (x : List (List (List ℚ))) (d : Nat) : List (List (List ℚ)) :=
  x.map fun m => m.map fun row => padTo row d

/-- `segment_task2` (lines 276-316).  The target is reshaped so its cut
axis is trailing; the two cut-point lists are computed independently with
strides `int(predictors_len_segment*overlap)` and
`int(target_len_segment*overlap)`; a mismatch of their lengths raises the
ValueError before any chunk is built.  Inside the loop a single condition
`end_p <= predictors.shape[-1]` selects slicing versus zero-padding for
BOTH streams, exactly as in the source. -/
def segment_task2 (predictors : List (List (List ℚ))) (target : List (List ℚ))
    (predictors_len_segment target_len_segment : Nat) (overlap : ℚ) :
    Except String (List (List (List (List ℚ))) × List (List (List ℚ))) :=
  let t3 := reshapeTarget target
  let P := lastDim3 predictors
  let T := lastDim3 t3
  let cuts_predictors := task2Cuts P predictors_len_segment overlap
  let cuts_target := task2Cuts T target_len_segment overlap
  if cuts_predictors.length ≠ cuts_target.length then
    Except.error "Predictors and test frames should be selected to produce the same amount of frames"
  else
    let XY := (List.range cuts_predictors.length).map fun i =>
      let start_p := cuts_predictors.getD i 0
      let start_t := cuts_target.getD i 0
      let end_p := start_p + predictors_len_segment
      let end_t := start_t + target_len_segment
      let cut_x := if end_p ≤ P then slice3 predictors start_p end_p
                   else pad3 (drop3 predictors start_p) predictors_len_segment
      let cut_y := if end_p ≤ P then slice3 t3 start_t end_t
                   else pad3 (drop3 t3 start_t) target_len_segment
      (cut_x, reshapeCutY cut_y)
    Except.ok (XY.map Prod.fst, XY.map Prod.snd)

/-- Shape-level model of `scipy.signal.stft` with the defaults the source
uses (real input, onesided, `boundary='zeros'`, `padded=True`): the
trailing axis of length `n` is replaced by a frequency axis of
`nperseg/2 + 1` bins and a time axis of
`⌈(n + 2*(nperseg/2) - nperseg)/hop⌉ + 1` columns, `hop = nperseg -
noverlap`; `noverlap ≥ nperseg` raises scipy's ValueError. -/
def stftShape (s : List Nat) (nperseg noverlap : Nat) : Except String (List Nat) :=
  if nperseg ≤ noverlap then Except.error "ValueError: noverlap must be less than nperseg."
  else
    let hop := nperseg - noverlap
    let n := s.getLastD 0
    let nExt := n + 2 * (nperseg / 2)
    let t := (nExt - nperseg + hop - 1) / hop + 1
    Except.ok (s.dropLast ++ [nperseg / 2 + 1, t])

/-- `np.concatenate((output, phase), axis=-3)` at shape level: both
operands share `shape`, so the axis `rank-3` is doubled; numpy raises an
AxisError when the rank is below 3. -/
def concatAxisNeg3 (shape : List Nat) : Except String (List Nat) :=
  if shape.length < 3 then Except.error "AxisError: axis -3 is out of bounds"
  else Except.ok (shape.set (shape.length - 3) (2 * shape.getD (shape.length - 3) 0))

/-- `output[:,1:,:]` at shape level: three indices demand rank at least 3
(numpy IndexError otherwise); axis 1 loses its first entry. -/
def cutDcShape (shape : List Nat) : Except String (List Nat) :=
  if shape.length < 3 then Except.error "IndexError: too many indices for array"
  else Except.ok (shape.set 1 (shape.getD 1 0 - 1))

/-- `output[:,:,:-1]` at shape level: three indices demand rank at least 3
(numpy IndexError otherwise); axis 2 loses its last entry. -/
def cutLastShape (shape : List Nat) : Except String (List Nat) :=
  if shape.length < 3 then Except.error "IndexError: too many indices for array"
  else Except.ok (shape.set 2 (shape.getD 2 0 - 1))

/-- `spectrum_fast` (lines 55-81) at shape level: stft, magnitude (shape
preserved), optional phase concatenation along axis -3, optional DC-bin
cut, optional last-time-frame cut, in source order. -/
def spectrum_fast_shape (s : List Nat) (nperseg noverlap : Nat)
    (cut_dc output_phase cut_last_timeframe : Bool) : Except String (List Nat) := do
  let spec ← stftShape s nperseg noverlap
  let spec ← if output_phase then concatAxisNeg3 spec else Except.ok spec
  let spec ← if cut_dc then cutDcShape spec else Except.ok spec
  let spec ← if cut_last_timeframe then cutLastShape spec else Except.ok spec
  Except.ok spec

/-!  Concrete inputs used by the claim theorems below. -/

/-- The single event of the specification's concrete scenario:
start=0.0, end=0.5, class "dog" (index 0), x=1, y=0, z=0. -/
def dogEvent : Event := ⟨0, 1 / 2, 0, 1, 0, 0⟩

/-- The encoded matrix of that scenario: one class, 10 frames of 0.1 s,
max_loc_distance 2. -/
def dogMatrix : List (List ℚ) := get_label_task2 [dogEvent] 1 10 (1 / 10) 2

/-- Two events of class 0 that both overlap the frame window (0.1, 0.2):
the first occupies presence and location slot 0. -/
def e1 : Event := ⟨0, 3 / 10, 0, 1 / 4, 1 / 2, 3 / 4⟩

/-- The second concurrent event of class 0: its presence lands in slot 1
while its location triple lands in slot 2. -/
def e2 : Event := ⟨1 / 20, 7 / 20, 0, 1 / 2, 1 / 4, 1 / 8⟩

/-- Encoding of the two concurrent events over 2 frames of 0.1 s with
`max_label_distance = 1`. -/
def out1 : List (List ℚ) := get_label_task2 [e1, e2] 1 2 (1 / 10) 1

/-- A second pair of concurrent class-0 events, input of the
encode-then-decode pipeline evaluation; both lie within the 0.4 s
duration encoded by `out3`. -/
def f1 : Event := ⟨0, 3 / 10, 0, 1 / 3, 2 / 3, 1⟩

/-- See `f1`. -/
def f2 : Event := ⟨1 / 20, 7 / 20, 0, 5 / 7, 2 / 7, 3 / 7⟩

/-- Encoding of `[f1, f2]` over the full 0.4 s duration (4 frames of
0.1 s, so both events' (start, end) lie within [0, duration]),
`max_label_distance = 1`. -/
def out3 : List (List ℚ) := get_label_task2 [f1, f2] 1 4 (1 / 10) 1

/-- The class-presence half of `out3` (first `num_classes*3` columns). -/
def sed3 : List (List ℚ) := out3.map (fun r => r.take 3)

/-- The location half of `out3` (last `num_classes*9` columns). -/
def doa3 : List (List ℚ) := out3.map (fun r => r.drop 3)

/-- A family of class-0 events covering (0, 0.5) with coordinates
(k, k, k): four of them exceed the three overlap slots of a class. -/
def gev (k : ℚ) : Event := ⟨0, 1 / 2, 0, k, k, k⟩

/-- The frame state after two events of `gev` have been assigned to a
frame window: presence slots 0 and 1 and location slots 0 and 2 of class
0 are occupied (the location chain's guard cells are both filled). -/
def c4Row : FrameRow :=
  applyEvent 0 (gev 2) (1 / 10) (2 / 10) (applyEvent 0 (gev 1) (1 / 10) (2 / 10) initRow)

/-- A 1 x 1 x 10 predictor array with distinguishable samples. -/
def csPred : List (List (List ℚ)) := [[[0, 1, 2, 3, 4, 5, 6, 7, 8, 9]]]

/-- A 5 x 1 target matrix: its reshaped cut axis has 5 steps, giving the
same number of cut points as `csPred` with the default segment lengths. -/
def csTarg : List (List ℚ) := [[0], [0], [0], [0], [0]]

/-- The 105-sample waveform of the specification's segmentation scenario. -/
def w105 : List ℚ := (List.range 105).map (fun n => (n : ℚ))

/-!  Definitions transcribed from the specification's words (not from the
source), used only to compare the spec against the code. -/

/-- The cut-point sequence the specification claims for the paired
segmenter: stride `segment_len * (1 - overlap)`. -/
def specClaimedCuts (total seg_len : Nat) (overlap : ℚ) : List Nat :=
  arangeN total (intTrunc ((seg_len : ℚ) * (1 - overlap)))

/-- The specification's notion of an exact-length chunk: a contiguous
in-bounds slice of the original row of the chunk's own length. -/
def specExactSlice (chunk row : List ℚ) : Bool :=
  (List.range (row.length + 1 - chunk.length)).any fun s =>
    decide (chunk = (row.drop s).take chunk.length)

end L3DAS

namespace L3DAS

/-! Helper lemmas about `arangeN`, slicing and padding. -/

theorem map_range_getD {α : Type} (f : Nat → α) (n i : Nat) (d : α) (h : i < n) :
    ((List.range n).map f).getD i d = f i := by
  simp [List.getD_eq_getElem?_getD, List.getElem?_map, List.getElem?_range h]

theorem arangeN_length (stop step : Nat) :
    (arangeN stop step).length = (stop + step - 1) / step := by
  simp [arangeN]

theorem arangeN_getD {stop step i : Nat} (h : i < (arangeN stop step).length) :
    (arangeN stop step).getD i 0 = i * step := by
  rw [arangeN_length] at h
  exact map_range_getD _ _ _ _ h

theorem ceil_div_mul_ge {N len : Nat} (h : 0 < len) :
    N ≤ ((N + len - 1) / len) * len := by
  have hd := Nat.div_add_mod (N + len - 1) len
  have hr : (N + len - 1) % len < len := Nat.mod_lt _ h
  rw [Nat.mul_comm] at hd
  omega

theorem ceil_div_pred_mul_lt {N len : Nat} (h : 0 < len) (hN : 0 < N) :
    ((N + len - 1) / len - 1) * len < N := by
  have hd := Nat.div_add_mod (N + len - 1) len
  have hr : (N + len - 1) % len < len := Nat.mod_lt _ h
  rw [Nat.mul_comm] at hd
  rw [Nat.sub_mul, Nat.one_mul]
  omega

theorem ceil_div_pos {N len : Nat} (h : 0 < len) (hN : 0 < N) :
    0 < (N + len - 1) / len :=
  Nat.div_pos (by omega) h

theorem ceil_div_zero {len : Nat} (h : 0 < len) : (0 + len - 1) / len = 0 :=
  Nat.div_eq_of_lt (by omega)

theorem map_getD_lt {p : List (List ℚ)} (g : List ℚ → List ℚ) {ch : Nat} (h : ch < p.length) :
    (p.map g).getD ch [] = g (p.getD ch []) := by
  simp [List.getD_eq_getElem?_getD, List.getElem?_map, List.getElem?_eq_getElem, h]

theorem rowSlice_length (row : List ℚ) (s e : Nat) :
    (rowSlice row s e).length = min (e - s) (row.length - s) := by
  simp [rowSlice]

theorem rowSlice_to_end {row : List ℚ} {N : Nat} (h : row.length = N) (s : Nat) :
    rowSlice row s N = row.drop s := by
  unfold rowSlice
  apply List.take_of_length_le
  simp [h]

theorem padTo_length {row : List ℚ} {d : Nat} (h : row.length ≤ d) :
    (padTo row d).length = d := by
  simp [padTo]
  omega

theorem slice_chunks_flatten (row : List ℚ) (len : Nat) :
    ∀ m : Nat, (((List.range m).map fun i => (row.drop (i * len)).take len).flatten)
      = row.take (m * len)
  | 0 => by simp
  | m + 1 => by
    rw [List.range_succ, List.map_append, List.flatten_append,
      slice_chunks_flatten row len m]
    simp only [List.map_cons, List.map_nil, List.flatten_cons, List.flatten_nil,
      List.append_nil]
    rw [Nat.succ_mul, List.take_add]

theorem row_chunks_take {row : List ℚ} {len N : Nat} (hlen : 0 < len) (hrow : row.length = N) :
    ((((List.range ((N + len - 1) / len)).map fun i =>
        if i ≠ (N + len - 1) / len - 1 then rowSlice row (i * len) ((i + 1) * len)
        else padTo (rowSlice row (i * len) N) len)).flatten).take N = row := by
  rcases Nat.eq_zero_or_pos N with hN | hN
  · subst hN
    rw [ceil_div_zero hlen]
    simp
    exact List.eq_nil_of_length_eq_zero hrow
  · obtain ⟨m, hm⟩ : ∃ m, (N + len - 1) / len = m + 1 :=
      ⟨(N + len - 1) / len - 1, by have := ceil_div_pos hlen hN; omega⟩
    rw [hm, List.range_succ, List.map_append, List.flatten_append]
    have hfirst : ((List.range m).map fun i =>
        if i ≠ m + 1 - 1 then rowSlice row (i * len) ((i + 1) * len)
        else padTo (rowSlice row (i * len) N) len) =
        (List.range m).map fun i => (row.drop (i * len)).take len := by
      apply List.map_congr_left
      intro i hi
      rw [List.mem_range] at hi
      rw [if_pos (by omega)]
      unfold rowSlice
      congr 1
      rw [Nat.succ_mul]
      omega
    rw [hfirst, slice_chunks_flatten row len m]
    simp only [List.map_cons, List.map_nil, List.flatten_cons, List.flatten_nil,
      List.append_nil, if_neg (by omega : ¬ m ≠ m + 1 - 1)]
    rw [rowSlice_to_end hrow, padTo]
    rw [← List.append_assoc, List.take_append_drop, ← hrow]
    exact List.take_left _ _

end L3DAS

namespace L3DAS

theorem segment_waveforms_fst_getD (p t : List (List ℚ)) (len i : Nat)
    (h : i < (arangeN (p.headD []).length len).length) :
    (segment_waveforms p t len).1.getD i [] =
      (if i ≠ (arangeN (p.headD []).length len).length - 1 then
        p.map fun row => rowSlice row (i * len) ((i + 1) * len)
      else p.map fun row => padTo (rowSlice row (i * len) (p.headD []).length) len) := by
  simp only [segment_waveforms, map_range_getD _ _ _ _ h]
  by_cases hc : i = (arangeN (p.headD []).length len).length - 1
  · simp only [if_neg (not_not_intro hc), arangeN_getD h]
  · have h1 : i + 1 < (arangeN (p.headD []).length len).length := by omega
    simp only [if_pos hc, arangeN_getD h, arangeN_getD h1]

end L3DAS

namespace L3DAS

theorem segment_waveforms_fst_length (p t : List (List ℚ)) (len : Nat) :
    (segment_waveforms p t len).1.length = (arangeN (p.headD []).length len).length := by
  simp [segment_waveforms]

end L3DAS

namespace L3DAS

theorem segment_waveforms_row_chunks (p t : List (List ℚ)) (len ch : Nat)
    (hlt : ch < p.length) :
    (segment_waveforms p t len).1.map (fun chunk => chunk.getD ch []) =
      (List.range (((p.headD []).length + len - 1) / len)).map fun i =>
        if i ≠ ((p.headD []).length + len - 1) / len - 1 then
          rowSlice (p.getD ch []) (i * len) ((i + 1) * len)
        else padTo (rowSlice (p.getD ch []) (i * len) (p.headD []).length) len := by
  apply List.ext_getElem
  · simp [segment_waveforms_fst_length, arangeN_length]
  · intro i h1 h2
    rw [List.getElem_map, List.getElem_map, List.getElem_range]
    have hik : i < (arangeN (p.headD []).length len).length := by
      rw [List.length_map, segment_waveforms_fst_length] at h1
      exact h1
    rw [← List.getD_eq_getElem _ [] (by rw [segment_waveforms_fst_length]; exact hik)]
    rw [segment_waveforms_fst_getD p t len i hik]
    rw [apply_ite (fun m => List.getD m ch ([] : List ℚ))]
    rw [map_getD_lt _ hlt, map_getD_lt _ hlt, arangeN_length]

end L3DAS

namespace L3DAS

/-- C9 For every input, cutting with `segment_waveforms`, concatenating
the returned chunks along the time axis and truncating to the original
trailing length reproduces each channel row of the original sequence
exactly (padding only ever appears after the original samples). -/
theorem segment_waveforms_roundtrip (p t : List (List ℚ)) (len ch : Nat)
    (hlen : 0 < len) (hch : (p.getD ch []).length = (p.headD []).length) :
    (((segment_waveforms p t len).1.map fun chunk => chunk.getD ch []).flatten).take
      ((p.headD []).length) = p.getD ch [] := by
  by_cases hlt : ch < p.length
  · rw [segment_waveforms_row_chunks p t len ch hlt]
    exact row_chunks_take hlen hch
  · have hrow : p.getD ch [] = [] := List.getD_eq_default _ _ (Nat.le_of_not_lt hlt)
    have hN : (p.headD []).length = 0 := by rw [← hch, hrow]; rfl
    rw [hN, List.take_zero, hrow]

/-- Witness for C9: the round trip at a concrete 2-channel, 5-sample
input cut into chunks of 2. -/
theorem segment_waveforms_roundtrip_witness :
    0 < 2 ∧
    (([[1, 2, 3, 4, 5], [6, 7, 8, 9, 10]] : List (List ℚ)).getD 1 []).length =
      (([[1, 2, 3, 4, 5], [6, 7, 8, 9, 10]] : List (List ℚ)).headD []).length ∧
    (((segment_waveforms [[1, 2, 3, 4, 5], [6, 7, 8, 9, 10]] [[0, 0, 0, 0, 0]] 2).1.map
        fun chunk => chunk.getD 1 []).flatten).take
      (([[1, 2, 3, 4, 5], [6, 7, 8, 9, 10]] : List (List ℚ)).headD []).length =
      ([[1, 2, 3, 4, 5], [6, 7, 8, 9, 10]] : List (List ℚ)).getD 1 [] :=
  ⟨by decide, by with_unfolding_all decide,
   segment_waveforms_roundtrip [[1, 2, 3, 4, 5], [6, 7, 8, 9, 10]] [[0, 0, 0, 0, 0]] 2 1
     (by decide) (by with_unfolding_all decide)⟩

end L3DAS

namespace L3DAS

theorem segment_waveforms_chunk_cases (p t : List (List ℚ)) (len i ch : Nat)
    (hlen : 0 < len) (hlt : ch < p.length)
    (hch : (p.getD ch []).length = (p.headD []).length) :
    (i + 1 < (arangeN (p.headD []).length len).length →
      ((segment_waveforms p t len).1.getD i []).getD ch [] =
        rowSlice (p.getD ch []) (i * len) ((i + 1) * len) ∧
      (((segment_waveforms p t len).1.getD i []).getD ch []).length = len)
    ∧ (i + 1 = (arangeN (p.headD []).length len).length →
      ((segment_waveforms p t len).1.getD i []).getD ch [] =
        (p.getD ch []).drop (i * len) ++
          List.replicate (len - ((p.headD []).length - i * len)) 0 ∧
      (((segment_waveforms p t len).1.getD i []).getD ch []).length = len) := by
  have hN0 : 0 < (arangeN (p.headD []).length len).length →
      0 < (p.headD []).length := by
    intro hk
    by_contra h0
    push_neg at h0
    rw [arangeN_length, Nat.le_zero.mp h0, ceil_div_zero hlen] at hk
    omega
  constructor
  · intro hik1
    have hik : i < (arangeN (p.headD []).length len).length := by omega
    have hchunk : ((segment_waveforms p t len).1.getD i []).getD ch [] =
        rowSlice (p.getD ch []) (i * len) ((i + 1) * len) := by
      rw [segment_waveforms_fst_getD p t len i hik, if_pos (by omega), map_getD_lt _ hlt]
    refine ⟨hchunk, ?_⟩
    rw [hchunk, rowSlice_length, hch]
    have hmul : (i + 1) * len ≤ ((arangeN (p.headD []).length len).length - 1) * len :=
      Nat.mul_le_mul_right _ (by omega)
    have hlast := ceil_div_pred_mul_lt hlen (hN0 (by omega))
    rw [arangeN_length] at hmul
    rw [Nat.succ_mul] at hmul ⊢
    omega
  · intro hik1
    have hik : i < (arangeN (p.headD []).length len).length := by omega
    have hdroplen : ((p.getD ch []).drop (i * len)).length =
        (p.headD []).length - i * len := by
      rw [List.length_drop, hch]
    have hchunk : ((segment_waveforms p t len).1.getD i []).getD ch [] =
        (p.getD ch []).drop (i * len) ++
          List.replicate (len - ((p.headD []).length - i * len)) 0 := by
      rw [segment_waveforms_fst_getD p t len i hik, if_neg (not_not_intro (by omega)),
        map_getD_lt _ hlt, rowSlice_to_end hch, padTo, hdroplen]
    have hcap : (p.headD []).length - i * len ≤ len := by
      have hup := ceil_div_mul_ge (N := (p.headD []).length) hlen
      rw [← arangeN_length, ← hik1, Nat.succ_mul] at hup
      omega
    refine ⟨hchunk, ?_⟩
    rw [hchunk]
    simp only [List.length_append, List.length_replicate, hdroplen]
    omega

/-- C8 The waveform segmenter cuts every chunk except the last as an
exact-length slice of the original rows and zero-pads only the final
chunk on the right to `length`; in particular a 105-sample input with
`length = 50` yields 3 chunks of length 50, the last carrying samples
100..104 followed by 45 zeros. -/
theorem segment_chunks_exact_and_padded :
    (∀ (p t : List (List ℚ)) (len i ch : Nat), 0 < len → ch < p.length →
      (p.getD ch []).length = (p.headD []).length →
      ((i + 1 < (arangeN (p.headD []).length len).length →
        ((segment_waveforms p t len).1.getD i []).getD ch [] =
          rowSlice (p.getD ch []) (i * len) ((i + 1) * len) ∧
        (((segment_waveforms p t len).1.getD i []).getD ch []).length = len)
      ∧ (i + 1 = (arangeN (p.headD []).length len).length →
        ((segment_waveforms p t len).1.getD i []).getD ch [] =
          (p.getD ch []).drop (i * len) ++
            List.replicate (len - ((p.headD []).length - i * len)) 0 ∧
        (((segment_waveforms p t len).1.getD i []).getD ch []).length = len)))
    ∧ (segment_waveforms [w105] [w105] 50).1.length = 3
    ∧ ((segment_waveforms [w105] [w105] 50).1.getD 0 []).getD 0 [] = rowSlice w105 0 50
    ∧ ((segment_waveforms [w105] [w105] 50).1.getD 1 []).getD 0 [] = rowSlice w105 50 100
    ∧ ((segment_waveforms [w105] [w105] 50).1.getD 2 []).getD 0 [] =
        rowSlice w105 100 105 ++ List.replicate 45 0
    ∧ (((segment_waveforms [w105] [w105] 50).1.getD 2 []).getD 0 []).length = 50 :=
  ⟨fun p t len i ch hlen hlt hch => segment_waveforms_chunk_cases p t len i ch hlen hlt hch,
   by with_unfolding_all decide, by with_unfolding_all decide, by with_unfolding_all decide,
   by with_unfolding_all decide, by with_unfolding_all decide⟩

/-- Witness for C8: the general part evaluated on an 8-sample channel cut
into chunks of 3 (first chunk an exact slice of length 3, last chunk
padded with one zero). -/
theorem segment_chunks_exact_and_padded_witness :
    (0 < 3 ∧ 0 < ([[(1 : ℚ), 2, 3, 4, 5, 6, 7, 8]] : List (List ℚ)).length ∧
      (([[(1 : ℚ), 2, 3, 4, 5, 6, 7, 8]] : List (List ℚ)).getD 0 []).length =
        (([[(1 : ℚ), 2, 3, 4, 5, 6, 7, 8]] : List (List ℚ)).headD []).length ∧
      0 + 1 < (arangeN (([[(1 : ℚ), 2, 3, 4, 5, 6, 7, 8]] : List (List ℚ)).headD []).length 3).length) ∧
    ((segment_waveforms [[(1 : ℚ), 2, 3, 4, 5, 6, 7, 8]] [[0]] 3).1.getD 0 []).getD 0 [] =
      rowSlice (([[(1 : ℚ), 2, 3, 4, 5, 6, 7, 8]] : List (List ℚ)).getD 0 []) (0 * 3) ((0 + 1) * 3) ∧
    (((segment_waveforms [[(1 : ℚ), 2, 3, 4, 5, 6, 7, 8]] [[0]] 3).1.getD 0 []).getD 0 []).length = 3 :=
  ⟨⟨by decide, by decide, by with_unfolding_all decide, by with_unfolding_all decide⟩,
   ((segment_chunks_exact_and_padded.1 [[(1 : ℚ), 2, 3, 4, 5, 6, 7, 8]] [[0]] 3 0 0
      (by decide) (by decide) (by with_unfolding_all decide)).1
      (by with_unfolding_all decide)).1,
   ((segment_chunks_exact_and_padded.1 [[(1 : ℚ), 2, 3, 4, 5, 6, 7, 8]] [[0]] 3 0 0
      (by decide) (by decide) (by with_unfolding_all decide)).1
      (by with_unfolding_all decide)).2⟩

/-- C8 counterexample: in `segment_task2` with overlap 1/2 the chunk at
index 1 of 3 (not the last) is already zero-padded: it is not an
exact-length slice of the 10-sample original. -/
theorem segment_task2_nonlast_padded_cex :
    (segment_task2 csPred csTarg 8 4 (1 / 2)).toOption.map (fun XY => XY.1.length) = some 3
    ∧ (segment_task2 csPred csTarg 8 4 (1 / 2)).toOption.map
        (fun XY => ((XY.1.getD 1 []).getD 0 []).getD 0 []) = some [4, 5, 6, 7, 8, 9, 0, 0]
    ∧ specExactSlice [4, 5, 6, 7, 8, 9, 0, 0] [0, 1, 2, 3, 4, 5, 6, 7, 8, 9] = false := by
  refine ⟨?_, ?_, ?_⟩ <;> with_unfolding_all decide

end L3DAS

namespace L3DAS

/-- C6 counterexample: with overlap 1/4 and segment length 8 on a
10-sample axis, `segment_task2` cuts at `int(8*0.25) = 2`, giving
`[0, 2, 4, 6, 8]`, whereas the claimed stride `8*(1-0.25) = 6` would give
`[0, 6]`. -/
theorem task2Cuts_stride_cex :
    task2Cuts 10 8 (1 / 4) = [0, 2, 4, 6, 8]
    ∧ specClaimedCuts 10 8 (1 / 4) = [0, 6]
    ∧ task2Cuts 10 8 (1 / 4) ≠ specClaimedCuts 10 8 (1 / 4) := by
  refine ⟨?_, ?_, ?_⟩ <;> with_unfolding_all decide

/-- C6 (amended) the paired segmenter's cut points (for either stream:
`total` and `seg_len` instantiate to the predictor or the target
dimensions) sit at stride `int(seg_len * overlap)`, not
`seg_len * (1 - overlap)`; the waveform segmenter's cut points sit at
stride `length`. -/
theorem cut_points_stride_amended :
    (∀ (total slen : Nat) (ov : ℚ) (i : Nat), i < (task2Cuts total slen ov).length →
      (task2Cuts total slen ov).getD i 0 = i * intTrunc ((slen : ℚ) * ov))
    ∧ (∀ (N len i : Nat), i < (arangeN N len).length →
      (arangeN N len).getD i 0 = i * len) :=
  ⟨fun total slen ov i h => arangeN_getD h, fun N len i h => arangeN_getD h⟩

/-- Witness for C6: the fourth cut point with overlap 1/4 is
`3 * int(8*0.25) = 6`; the third waveform cut point with length 50 is
100. -/
theorem cut_points_stride_amended_witness :
    3 < (task2Cuts 10 8 (1 / 4)).length
    ∧ (task2Cuts 10 8 (1 / 4)).getD 3 0 = 3 * intTrunc ((8 : ℚ) * (1 / 4))
    ∧ 2 < (arangeN 105 50).length
    ∧ (arangeN 105 50).getD 2 0 = 2 * 50 :=
  ⟨by with_unfolding_all decide,
   cut_points_stride_amended.1 10 8 (1 / 4) 3 (by with_unfolding_all decide),
   by decide, cut_points_stride_amended.2 105 50 2 (by decide)⟩

end L3DAS

namespace L3DAS

theorem npRound_bounded (q : ℚ) (h0 : 0 ≤ q) (h1 : q ≤ 1) :
    npRound q = if q ≤ 1 / 2 then 0 else 1 := by
  rcases eq_or_lt_of_le h1 with rfl | h1lt
  · norm_num [npRound]
  · have hf : ⌊q⌋ = 0 := Int.floor_eq_zero_iff.mpr (Set.mem_Ico.mpr ⟨h0, h1lt⟩)
    simp only [npRound, hf, Int.cast_zero, sub_zero]
    split_ifs with ha hb hc hd he <;> first | rfl | linarith | omega

end L3DAS

namespace L3DAS

theorem npRound_one : npRound 1 = 1 := by norm_num [npRound]

/-- C5 counterexample: a class-presence score of exactly 0.5 is rounded
by `np.round` (half to even) to 0, so `gen_submission_list_task2` (here
with one class, one overlap slot, and a location row of the matching
size 3) emits no row for it, contradicting the claimed "0.5 or above
becomes 1". -/
theorem gen_submission_half_cex :
    gen_submission_list_task2 [[1 / 2]] [[3, 4, 5]] 2 600 1 1 = Except.ok [] := by
  with_unfolding_all decide

/-- C5 (amended) for scores in [0, 1] the decoder's rounding sends
everything up to and including 1/2 to 0 and everything strictly above 1/2
to 1 (np.round is round-half-to-even, so exactly 0.5 becomes 0); on
inputs of the shapes the decoder accepts (location rows of size
`num_classes*max_overlaps*3`), a frame whose entries all round to 0
contributes no rows; a single entry of 1.0 emits exactly one row
`[frame, j/max_overlaps, x, y, z]` with the location de-normalized by
`max_loc_value`, and slot index j recovers the class as
`j / max_overlaps` (the 6-slot example: j = 4, class 1, event 1) and the
event index as `j % max_overlaps`. -/
theorem gen_submission_threshold_amended :
    (∀ q : ℚ, 0 ≤ q → q ≤ 1 → npRound q = if q ≤ 1 / 2 then 0 else 1)
    ∧ gen_submission_list_task2 [[2 / 5]] [[0, 0, 0]] 2 600 1 1 = Except.ok []
    ∧ (∀ a b c m : ℚ, gen_submission_list_task2 [[1]] [[a, b, c]] m 600 1 1 =
        Except.ok [⟨0, 0, a * m, b * m, c * m⟩])
    ∧ gen_submission_list_task2 [[0, 0, 0, 0, 1, 0]]
        [(List.range 18).map (fun n => (n : ℚ))] 2 600 2 3 =
        Except.ok [⟨0, 1, 24, 26, 28⟩] := by
  refine ⟨npRound_bounded, by with_unfolding_all decide, ?_, by with_unfolding_all decide⟩
  intro a b c m
  simp [gen_submission_list_task2, decodeFrame, npRound_one, List.enum, List.enumFrom,
    List.foldlM, List.getD]
  rfl

/-- Witness for C5: the rounding characterization applied at the
threshold score 1/2, and the single-entry decode applied at a concrete
location triple. -/
theorem gen_submission_threshold_amended_witness :
    (0 : ℚ) ≤ 1 / 2 ∧ (1 : ℚ) / 2 ≤ 1
    ∧ npRound (1 / 2) = (if (1 : ℚ) / 2 ≤ 1 / 2 then 0 else 1)
    ∧ gen_submission_list_task2 [[1]] [[3, 4, 5]] 2 600 1 1 =
        Except.ok [⟨0, 0, 3 * 2, 4 * 2, 5 * 2⟩] :=
  ⟨by norm_num, by norm_num,
   gen_submission_threshold_amended.1 (1 / 2) (by norm_num) (by norm_num),
   gen_submission_threshold_amended.2.2.1 3 4 5 2⟩

end L3DAS

namespace L3DAS

/-- C4 counterexample: four concurrent class-0 events in one frame (one
more than the three slots) do not leave the first three slots' entries
intact: the fourth event overwrites the third location triple, so the
encoding of the four events differs from the encoding of the first three,
and the overflowing triple holds the fourth event's coordinates. -/
theorem get_label_task2_overflow_cex :
    get_label_task2 [gev 1, gev 2, gev 3, gev 4] 1 2 (1 / 10) 1 ≠
      get_label_task2 [gev 1, gev 2, gev 3] 1 2 (1 / 10) 1
    ∧ (get_label_task2 [gev 1, gev 2, gev 3, gev 4] 1 2 (1 / 10) 1).getD 1 [] =
        [1, 1, 1, 1, 1, 1, 0, 0, 0, 4, 4, 4]
    ∧ (get_label_task2 [gev 1, gev 2, gev 3] 1 2 (1 / 10) 1).getD 1 [] =
        [1, 1, 1, 1, 1, 1, 0, 0, 0, 3, 3, 3] := by
  refine ⟨?_, ?_, ?_⟩ <;> with_unfolding_all decide

/-- C4 (amended) the encoder never raises and never writes outside the
class's fixed slot range, but it does not stop writing when the slots are
exhausted: once the first two presence slots and the location guard cells
of class `c` are occupied, every further overlapping event re-sets
presence slot 2 and overwrites the third location triple (offsets
`9c+6..9c+8`) with its own coordinates, leaving every other cell
unchanged. -/
theorem applyEvent_overflow (c : Nat) (ev : Event) (fstart fend : ℚ) (r : FrameRow)
    (hin : is_in ev fstart fend = true)
    (h0 : r.cls (c * 3) ≠ none) (h1 : r.cls (c * 3 + 1) ≠ none)
    (h2 : r.loc (c * 9) ≠ none) (h3 : r.loc (c * 3 + 1) ≠ none) :
    (applyEvent c ev fstart fend r).cls (c * 3 + 2) = some 1
    ∧ (∀ k, k ≠ c * 3 + 2 → (applyEvent c ev fstart fend r).cls k = r.cls k)
    ∧ (applyEvent c ev fstart fend r).loc (c * 9 + 6) = some ev.x
    ∧ (applyEvent c ev fstart fend r).loc (c * 9 + 7) = some ev.y
    ∧ (applyEvent c ev fstart fend r).loc (c * 9 + 8) = some ev.z
    ∧ (∀ k, k < c * 9 + 6 ∨ c * 9 + 8 < k → (applyEvent c ev fstart fend r).loc k = r.loc k) := by
  have hmul : c * 3 * 3 = c * 9 := by ring
  simp only [applyEvent, hin, if_true, hmul]
  rw [if_neg h0, if_neg (fun hand => h1 hand.2), if_neg h2, if_neg (fun hand => h3 hand.2)]
  refine ⟨?_, ?_, ?_, ?_, ?_, ?_⟩
  · simp [updF]
  · intro k hk
    simp [updF, hk]
  · simp only [updF]
    rw [if_neg (by omega), if_neg (by omega), if_pos (by omega)]
  · simp only [updF]
    rw [if_neg (by omega), if_pos (by omega)]
  · simp only [updF]
    rw [if_pos (by omega)]
  · intro k hk
    simp only [updF]
    rw [if_neg (by omega), if_neg (by omega), if_neg (by omega)]

/-- Witness for C4: a frame of class 0 with both presence slots and both
location guard cells already filled by `gev 1` and `gev 2`; pushing
`gev 3` sets presence slot 2 and writes its x-coordinate into location
offset 6. -/
theorem applyEvent_overflow_witness :
    is_in (gev 3) (1 / 10) (2 / 10) = true
    ∧ c4Row.cls (0 * 3) ≠ none ∧ c4Row.cls (0 * 3 + 1) ≠ none
    ∧ c4Row.loc (0 * 9) ≠ none ∧ c4Row.loc (0 * 3 + 1) ≠ none
    ∧ (applyEvent 0 (gev 3) (1 / 10) (2 / 10) c4Row).cls (0 * 3 + 2) = some 1
    ∧ (applyEvent 0 (gev 3) (1 / 10) (2 / 10) c4Row).loc (0 * 9 + 6) = some (gev 3).x :=
  ⟨by with_unfolding_all decide, by with_unfolding_all decide, by with_unfolding_all decide,
   by with_unfolding_all decide, by with_unfolding_all decide,
   (applyEvent_overflow 0 (gev 3) (1 / 10) (2 / 10) c4Row (by with_unfolding_all decide)
     (by with_unfolding_all decide) (by with_unfolding_all decide)
     (by with_unfolding_all decide) (by with_unfolding_all decide)).1,
   (applyEvent_overflow 0 (gev 3) (1 / 10) (2 / 10) c4Row (by with_unfolding_all decide)
     (by with_unfolding_all decide) (by with_unfolding_all decide)
     (by with_unfolding_all decide) (by with_unfolding_all decide)).2.2.1⟩

end L3DAS

namespace L3DAS

/-- C1 `get_label_task2` on two concurrent class-0 events both
overlapping frame 1 (layout of a row: presence slots 0..2, then three
location triples): the second event's presence lands in slot 1 (index 1)
but its coordinates (1/2, 1/4, 1/8) land in location slot 2 (indices
9..11), while location slot 1 (indices 6..8) stays zero -- the presence
slot index does not match the location slot index, because the location
chain's guard reads `loc_vec[ind_class+1]` instead of the start of the
second triple. -/
theorem get_label_task2_slot_mismatch :
    out1.getD 1 [] = [1, 1, 0, 1 / 4, 1 / 2, 3 / 4, 0, 0, 0, 1 / 2, 1 / 4, 1 / 8] := by
  with_unfolding_all decide

/-- C2 counterexample: in the dog scenario, frames 0 and 4 -- whose
boundaries coincide with the event's endpoints 0.0 and 0.5 -- carry
presence 0, not the claimed 1: all three overlap conditions are strict
inequalities. -/
theorem dog_scenario_cex :
    (dogMatrix.getD 0 []).getD 0 0 ≠ 1 ∧ (dogMatrix.getD 4 []).getD 0 0 ≠ 1 := by
  refine ⟨?_, ?_⟩ <;> with_unfolding_all decide

/-- C2 (amended) encoding the single event (0.0, 0.5, "dog", 1, 0, 0)
with step 0.1, duration 1.0 and max distance 2.0 marks only frames 1-3
with slot-0 presence 1 and location (0.5, 0, 0); frames 0 and 4-9 are all
zero, because the three strict overlap conditions exclude events whose
endpoints coincide with a frame boundary. -/
theorem dog_scenario_amended :
    dogMatrix =
      [List.replicate 12 0,
       [1, 0, 0, 1 / 2, 0, 0, 0, 0, 0, 0, 0, 0],
       [1, 0, 0, 1 / 2, 0, 0, 0, 0, 0, 0, 0, 0],
       [1, 0, 0, 1 / 2, 0, 0, 0, 0, 0, 0, 0, 0],
       List.replicate 12 0, List.replicate 12 0, List.replicate 12 0,
       List.replicate 12 0, List.replicate 12 0, List.replicate 12 0] := by
  with_unfolding_all decide

/-- C3 encode (`get_label_task2` over the full 0.4 s duration, both
events' (start, end) within [0, duration] and never more than 2 of the 3
slots in use) followed by decode (`gen_submission_list_task2`) with equal
constants: every decoded row recovers class id 0, and the first event's
coordinates survive the round trip, but the second event's coordinates
(5/7, 2/7, 3/7) do not at frame 1, where the two events are concurrent:
its decoded row there is `[1, 0, 0, 0, 0]` because the encoder put its
location into slot 2 while its presence sits in slot 1, and no row of
the output carries the original coordinates at frame 1. -/
theorem encode_decode_loses_coordinates :
    gen_submission_list_task2 sed3 doa3 1 4 1 3 =
      Except.ok [⟨0, 0, 5 / 7, 2 / 7, 3 / 7⟩, ⟨1, 0, 1 / 3, 2 / 3, 1⟩, ⟨1, 0, 0, 0, 0⟩,
        ⟨2, 0, 5 / 7, 2 / 7, 3 / 7⟩, ⟨3, 0, 5 / 7, 2 / 7, 3 / 7⟩]
    ∧ (⟨1, 0, f2.x, f2.y, f2.z⟩ : SubRow) ∉
        [⟨0, 0, 5 / 7, 2 / 7, 3 / 7⟩, ⟨1, 0, 1 / 3, 2 / 3, 1⟩, (⟨1, 0, 0, 0, 0⟩ : SubRow),
         ⟨2, 0, 5 / 7, 2 / 7, 3 / 7⟩, ⟨3, 0, 5 / 7, 2 / 7, 3 / 7⟩] := by
  refine ⟨?_, ?_⟩ <;> with_unfolding_all decide

/-- C10 shape-level behavior of `spectrum_fast`: a monophonic (1-D)
signal, the very input its docstring names, raises (the phase
concatenation needs axis -3 and the DC cut needs three indices, both
demanding rank at least 3), while a multichannel 2-D input returns a
(2*channels, freq-1, time-1) tensor, and `noverlap ≥ nperseg` raises
scipy's ValueError. -/
theorem spectrum_fast_monophonic_raises :
    spectrum_fast_shape [16000] 512 128 true true true =
      Except.error "AxisError: axis -3 is out of bounds"
    ∧ spectrum_fast_shape [16000] 512 128 true false true =
      Except.error "IndexError: too many indices for array"
    ∧ spectrum_fast_shape [4, 1000] 512 128 true true true = Except.ok [8, 256, 3]
    ∧ spectrum_fast_shape [4, 1000] 512 512 true true true =
      Except.error "ValueError: noverlap must be less than nperseg." := by
  refine ⟨?_, ?_, ?_, ?_⟩ <;> with_unfolding_all decide

end L3DAS
